import Mathlib

/-!
Shallow embedding of `gpytorch/module.py` (class `Module(nn.Module)`), together
with proofs about its callable interface, attribute interception, and
parameter-group iteration.
-/

set_option autoImplicit false

namespace GPyTorch

/--
Runtime values flowing through `Module.__call__`.

Modelled from the spec: the classes `Variable` (torch tensor wrapper),
`RandomVariable` (from `gpytorch.random_variables`) and `LazyVariable`
(from `gpytorch.lazy`) are imported in `module.py` but their definitions are
outside the given source. Per the spec's glossary they are three distinct
variants ("random variable ... as opposed to a deterministic tensor",
"lazy matrix: a matrix represented by a deferred/structured computation"),
so they are modelled as disjoint constructors, none a subclass of another.
`collection` models an iterable sequence (tuple/list) supporting `len` and
indexing; `otherObj` models any other, non-iterable Python object.
Each carries a `Nat` identity so that "returned unchanged" is expressible.
-/
inductive Value where
  | var : Nat → Value
  | randomVariable : Nat → Value
  | lazyVariable : Nat → Value
  | collection : List Value → Value
  | otherObj : Nat → Value

/-- `value.__class__.__name__` as used in the error messages of `__call__`. -/
def Value.className : Value → String
  | .var _ => "Variable"
  | .randomVariable _ => "RandomVariable"
  | .lazyVariable _ => "LazyVariable"
  | .collection _ => "tuple"
  | .otherObj _ => "object"

/-- `isinstance(v, RandomVariable) or isinstance(v, Variable)` — the input test
on line 18 of `module.py`. -/
def validInput (v : Value) : Bool :=
  match v with
  | .randomVariable _ => true
  | .var _ => true
  | _ => false

/-- `isinstance(v, RandomVariable) or isinstance(v, Variable) or
isinstance(v, LazyVariable)` — the output test on lines 22 and 26-28. -/
def validOutput (v : Value) : Bool :=
  match v with
  | .randomVariable _ => true
  | .var _ => true
  | .lazyVariable _ => true
  | _ => false

/--
Exceptions `Module.__call__` can raise, as distinct Python exception classes:
* `inputTypeError cls`: `RuntimeError('Input must be a RandomVariable or
  Variable, was a %s' % cls)` from line 19;
* `outputTypeError cls`: `RuntimeError('Output must be a RandomVariable,
  Variable, or LazyVariable. Was a %s' % cls)` from line 29 — note the source
  formats `input.__class__.__name__` (the leftover loop variable of the input
  loop), so `cls` is the class of the LAST positional input;
* `notIterable cls`: the `TypeError` Python raises when `for output in
  outputs` iterates a non-iterable object;
* `unboundLocal`: the `UnboundLocalError` raised when line 29 reads the local
  `input` although the input loop never ran (zero positional inputs).
-/
inductive PyErr where
  | inputTypeError : String → PyErr
  | outputTypeError : String → PyErr
  | notIterable : String → PyErr
  | unboundLocal : PyErr
deriving DecidableEq

/-- The Python exception class of each error `__call__` can raise. -/
def PyErr.pythonClass : PyErr → String
  | .inputTypeError _ => "RuntimeError"
  | .outputTypeError _ => "RuntimeError"
  | .notIterable _ => "TypeError"
  | .unboundLocal => "UnboundLocalError"

/-- The exact message of the two `RuntimeError`s raised in `__call__`. -/
def PyErr.message : PyErr → String
  | .inputTypeError cls => "Input must be a RandomVariable or Variable, was a " ++ cls
  | .outputTypeError cls => "Output must be a RandomVariable, Variable, or LazyVariable. Was a " ++ cls
  | .notIterable cls => cls ++ " object is not iterable"
  | .unboundLocal => "local variable referenced before assignment"

/-- A `for`-loop that raises on the first element failing `test`: returns the
first rejected element, if any. Both validation loops of `__call__` have this
shape. -/
def firstRejected (test : Value → Bool) : List Value → Option Value
  | [] => none
  | v :: rest => if test v then firstRejected test rest else some v

/-- The input-validation loop of `__call__` (lines 17-20): the first positional
input that is neither a `RandomVariable` nor a `Variable`, if any. -/
def firstInvalidInput : List Value → Option Value :=
  firstRejected validInput

/-- The output-validation loop of `__call__` (lines 25-30): the first element
of the iterated outputs that is not a `RandomVariable`, `Variable`, or
`LazyVariable`, if any. -/
def firstInvalidOutput : List Value → Option Value :=
  firstRejected validOutput

/--
Lines 21-33 of `module.py`: what `__call__` does with the value returned by
`forward`, after input validation succeeded. `inputs` is needed because the
output error message reads the leftover input-loop variable `input`, which at
that point holds the last positional input (or is unbound if there were none).
-/
def processOutput (inputs : List Value) (outputs : Value) : Except PyErr Value :=
  if validOutput outputs then .ok outputs
  else
    match outputs with
    | .collection elems =>
        match firstInvalidOutput elems with
        | some _ =>
            match inputs.getLast? with
            | some lastIn => .error (.outputTypeError lastIn.className)
            | none => .error .unboundLocal
        | none =>
            match elems with
            | [e] => .ok e
            | _ => .ok (.collection elems)
    | v => .error (.notIterable v.className)

/--
`Module.__call__(self, *inputs, **kwargs)` (lines 16-33): validate every
positional input, invoke `forward` on them, then validate and possibly unwrap
the outputs. `forward` is abstract in the source (line 13-14 raises
`NotImplementedError`), so it is a parameter here. Keyword arguments play no
role in any validation and are omitted.
-/
def Module.call (forward : List Value → Value) (inputs : List Value) : Except PyErr Value :=
  match firstInvalidInput inputs with
  | some bad => .error (.inputTypeError bad.className)
  | none => processOutput inputs (forward inputs)

/--
Values assignable as attributes, as far as `Module.__setattr__` discriminates:
`param` is an `nn.Parameter`, `pgroup` a `ParameterGroup` (identified by an
opaque `Nat`; the class itself comes from `gpytorch.parameters`, outside the
given source), `plainVal` any other non-module value.
-/
inductive AttrVal where
  | param : Nat → AttrVal
  | pgroup : Nat → AttrVal
  | plainVal : Nat → AttrVal
deriving DecidableEq

/--
The state of a module object. `PyModule.mk isGMod pgroups attrs modules`:
* `isGMod`: whether the object is an instance of the gpytorch `Module`
  subclass (`True`) or only of the host framework's `nn.Module` (`False`);
* `pgroups`: the `_parameter_groups` dict (insertion-ordered name/group list);
* `attrs`: the instance `__dict__` (where `super().__setattr__` puts
  non-parameter, non-module values, parameter groups included);
* `modules`: the `_modules` dict of named child modules; `self.children()`
  iterates its values in order.
-/
inductive PyModule where
  | mk : Bool → List (String × Nat) → List (String × AttrVal) → List (String × PyModule) → PyModule

def PyModule.isGMod : PyModule → Bool
  | .mk b _ _ _ => b

def PyModule.pgroups : PyModule → List (String × Nat)
  | .mk _ pgs _ _ => pgs

def PyModule.attrs : PyModule → List (String × AttrVal)
  | .mk _ _ ats _ => ats

def PyModule.modules : PyModule → List (String × PyModule)
  | .mk _ _ _ mods => mods

/-- First-match lookup in an insertion-ordered dict, as Python's `dict`
lookup (keys are unique) and as the first-match loops in the source. -/
def lookupStr {α : Type} : List (String × α) → String → Option α
  | [], _ => none
  | p :: rest, k => if p.1 = k then some p.2 else lookupStr rest k

/-- `d[k] = v` on an insertion-ordered dict with unique keys: replace in
place if the key is present, else append. -/
def dictInsert {α : Type} : List (String × α) → String → α → List (String × α)
  | [], k, v => [(k, v)]
  | p :: rest, k, v => if p.1 = k then (k, v) :: rest else p :: dictInsert rest k v

mutual

/--
`Module.named_parameter_groups(self)` (lines 57-64): yield the module's own
`_parameter_groups` items, then recurse into each child that is an instance
of the gpytorch `Module` subclass (the `isinstance(child, Module)` guard on
line 62); plain `nn.Module` children are skipped.
-/
def PyModule.named_parameter_groups : PyModule → List (String × Nat)
  | .mk _ pgs _ mods => pgs ++ npgOfChildren mods

/-- The `for child in self.children()` loop of lines 61-64. -/
def npgOfChildren : List (String × PyModule) → List (String × Nat)
  | [] => []
  | (_, c) :: rest =>
      (if c.isGMod then PyModule.named_parameter_groups c else []) ++ npgOfChildren rest

end

/-- The loop body of `parameter_groups` (lines 53-55): project each yielded
pair to its `param_group` component. -/
def pgValues : List (String × Nat) → List Nat
  | [] => []
  | (_, g) :: rest => g :: pgValues rest

/-- `Module.parameter_groups(self)`: yield `param_group` for each pair of
`named_parameter_groups()`. -/
def PyModule.parameter_groups (m : PyModule) : List Nat :=
  pgValues m.named_parameter_groups

/--
`Module.__setattr__(self, name, value)` (lines 35-40) for non-module values:
assigning an `nn.Parameter` raises `RuntimeError`; a `ParameterGroup` is
recorded in `_parameter_groups` and then stored by `super().__setattr__`
(which puts a non-parameter, non-module value into the instance `__dict__`);
any other value goes only to the instance `__dict__`.
-/
def PyModule.setattrVal (m : PyModule) (name : String) (v : AttrVal) :
    Except String PyModule :=
  match v with
  | .param _ => .error "Observation Models expect ParameterGroups, not nn.Parameters directly."
  | .pgroup g =>
      .ok (.mk m.isGMod (dictInsert m.pgroups name g) (dictInsert m.attrs name v) m.modules)
  | .plainVal _ =>
      .ok (.mk m.isGMod m.pgroups (dictInsert m.attrs name v) m.modules)

/-- A value produced by attribute lookup: an ordinary value or a child
module. -/
inductive PyObj where
  | attrVal : AttrVal → PyObj
  | moduleObj : PyModule → PyObj

/-- `nn.Module.__getattr__`: the host base class resolves names of child
modules registered in `_modules` (we do not model `_parameters` or
`_buffers`, which this subclass cannot populate: `__setattr__` rejects raw
`nn.Parameter`s), and raises `AttributeError` (`none`) otherwise. -/
def superGetattr (m : PyModule) (name : String) : Option PyObj :=
  match lookupStr m.modules name with
  | some c => some (.moduleObj c)
  | none => none

/--
Full attribute read on a module object. Python first performs normal lookup
in the instance `__dict__` (`attrs`); only when that fails is `__getattr__`
invoked. For a gpytorch `Module` instance, `__getattr__` (lines 42-51) raises
`AttributeError` for the reserved name `__setstate__`, otherwise scans
`named_parameter_groups()` and returns the first group whose name matches,
falling back to `super().__getattr__` when none does. The source's explicit
`__setstate__` guard ("Avoid issues with recursion when attempting deepcopy")
evidences that this name is not otherwise resolvable on these objects. A
`none` result models `AttributeError`.
-/
def getattribute (m : PyModule) (name : String) : Option PyObj :=
  match lookupStr m.attrs name with
  | some v => some (.attrVal v)
  | none =>
      if m.isGMod then
        if name = "__setstate__" then none
        else
          match lookupStr m.named_parameter_groups name with
          | some g => some (.attrVal (.pgroup g))
          | none => superGetattr m name
      else superGetattr m name

/-! ### Helper lemmas -/

theorem firstRejected_eq_none {test : Value → Bool} {l : List Value}
    (h : ∀ v ∈ l, test v = true) : firstRejected test l = none := by
  induction l with
  | nil => rfl
  | cons a as ih =>
      have ha := h a (List.mem_cons_self a as)
      have hrest := ih fun v hv => h v (List.mem_cons_of_mem a hv)
      simp [firstRejected, ha, hrest]

theorem firstRejected_isSome {test : Value → Bool} {l : List Value} {v : Value}
    (hmem : v ∈ l) (hbad : test v = false) :
    ∃ bad, firstRejected test l = some bad := by
  induction l with
  | nil => cases hmem
  | cons a as ih =>
      by_cases ha : test a = true
      · rcases List.mem_cons.mp hmem with rfl | hmem2
        · rw [hbad] at ha; cases ha
        · rcases ih hmem2 with ⟨bad, hb⟩
          exact ⟨bad, by simp [firstRejected, ha, hb]⟩
      · exact ⟨a, by simp [firstRejected, ha]⟩

theorem call_eq_processOutput (forward : List Value → Value) {inputs : List Value}
    (h : ∀ i ∈ inputs, validInput i = true) :
    Module.call forward inputs = processOutput inputs (forward inputs) := by
  have hnone : firstInvalidInput inputs = none := firstRejected_eq_none h
  simp [Module.call, hnone]

theorem processOutput_ne_inputTypeError (inputs : List Value) (out : Value)
    (cls : String) : processOutput inputs out ≠ .error (.inputTypeError cls) := by
  intro h
  unfold processOutput at h
  split at h
  · cases h
  · split at h
    · split at h
      · split at h <;> cases h
      · split at h <;> cases h
    · cases h

theorem mem_dictInsert_self {α : Type} (d : List (String × α)) (k : String)
    (v : α) : (k, v) ∈ dictInsert d k v := by
  induction d with
  | nil => exact List.mem_singleton.mpr rfl
  | cons p rest ih =>
      by_cases hk : p.1 = k
      · simp [dictInsert, hk]
      · simp only [dictInsert, if_neg hk]
        exact List.mem_cons_of_mem p ih

theorem npg_mk (b : Bool) (pgs : List (String × Nat))
    (ats : List (String × AttrVal)) (mods : List (String × PyModule)) :
    (PyModule.mk b pgs ats mods).named_parameter_groups = pgs ++ npgOfChildren mods := by
  rfl

theorem mem_npgOfChildren {mods : List (String × PyModule)} {p : String × Nat} :
    p ∈ npgOfChildren mods ↔
      ∃ nm c, (nm, c) ∈ mods ∧ c.isGMod = true ∧ p ∈ c.named_parameter_groups := by
  induction mods with
  | nil => simp [npgOfChildren]
  | cons hd tl ih =>
      obtain ⟨nm, c⟩ := hd
      by_cases hg : c.isGMod = true
      · constructor
        · intro hp
          rcases List.mem_append.mp (by simpa [npgOfChildren, hg] using hp) with hc | htl
          · exact ⟨nm, c, List.mem_cons_self _ _, hg, hc⟩
          · rcases ih.mp htl with ⟨nm2, c2, hmem, hgm, hp2⟩
            exact ⟨nm2, c2, List.mem_cons_of_mem _ hmem, hgm, hp2⟩
        · rintro ⟨nm2, c2, hmem, hgm, hp2⟩
          rcases List.mem_cons.mp hmem with heq | htl
          · injection heq with h1 h2
            subst h1; subst h2
            exact by simp [npgOfChildren, hg, List.mem_append, hp2]
          · simp [npgOfChildren, hg, List.mem_append, ih.mpr ⟨nm2, c2, htl, hgm, hp2⟩]
      · constructor
        · intro hp
          rcases ih.mp (by simpa [npgOfChildren, hg] using hp) with ⟨nm2, c2, hmem, hgm, hp2⟩
          exact ⟨nm2, c2, List.mem_cons_of_mem _ hmem, hgm, hp2⟩
        · rintro ⟨nm2, c2, hmem, hgm, hp2⟩
          rcases List.mem_cons.mp hmem with heq | htl
          · simp only [Prod.mk.injEq] at heq
            rw [heq.2] at hgm
            exact absurd hgm hg
          · simpa [npgOfChildren, hg] using ih.mpr ⟨nm2, c2, htl, hgm, hp2⟩

theorem pgValues_eq_map (l : List (String × Nat)) : pgValues l = l.map Prod.snd := by
  induction l with
  | nil => rfl
  | cons p rest ih => obtain ⟨nm, g⟩ := p; simp [pgValues, ih]

/-! ### Claim theorems -/

/-- C1: `named_parameter_groups()` yields every (name, parameter group) pair
that was assigned as an attribute of the module itself (`__setattr__` records
a `ParameterGroup` in `_parameter_groups`, and every pair of that dict is
yielded), and additionally every pair yielded by each nested child module's
own `named_parameter_groups()`, so parameter groups of nested children are
included in the iteration. -/
theorem npg_complete :
    (∀ (m : PyModule) (name : String) (g : Nat) (m2 : PyModule),
        m.setattrVal name (.pgroup g) = .ok m2 →
        (name, g) ∈ m2.named_parameter_groups)
    ∧ (∀ (b : Bool) (pgs : List (String × Nat)) (ats : List (String × AttrVal))
        (mods : List (String × PyModule)) (p : String × Nat),
        p ∈ pgs → p ∈ (PyModule.mk b pgs ats mods).named_parameter_groups)
    ∧ (∀ (b : Bool) (pgs : List (String × Nat)) (ats : List (String × AttrVal))
        (mods : List (String × PyModule)) (nm : String) (c : PyModule)
        (p : String × Nat),
        (nm, c) ∈ mods → c.isGMod = true → p ∈ c.named_parameter_groups →
        p ∈ (PyModule.mk b pgs ats mods).named_parameter_groups) := by
  refine ⟨?_, ?_, ?_⟩
  · intro m name g m2 h
    have hm2 : m2 = .mk m.isGMod (dictInsert m.pgroups name g)
        (dictInsert m.attrs name (.pgroup g)) m.modules := by
      simpa [PyModule.setattrVal] using h.symm
    rw [hm2, npg_mk]
    exact List.mem_append.mpr (Or.inl (mem_dictInsert_self _ _ _))
  · intro b pgs ats mods p hp
    rw [npg_mk]
    exact List.mem_append.mpr (Or.inl hp)
  · intro b pgs ats mods nm c p hmem hg hp
    rw [npg_mk]
    exact List.mem_append.mpr (Or.inr (mem_npgOfChildren.mpr ⟨nm, c, hmem, hg, hp⟩))

/-- Witness for C1 at concrete modules: assigning the group `1` under name
`"a"` to a fresh module makes `("a", 1)` appear in its iteration, and a
group `("b", 2)` of a nested child is yielded by the parent. -/
theorem npg_complete_witness :
    ("a", 1) ∈ (PyModule.mk true [("a", 1)]
        [("a", AttrVal.pgroup 1)] []).named_parameter_groups
    ∧ ("b", 2) ∈ (PyModule.mk true [] []
        [("c", PyModule.mk true [("b", 2)] [] [])]).named_parameter_groups :=
  ⟨npg_complete.1 (PyModule.mk true [] [] []) "a" 1
      (PyModule.mk true [("a", 1)] [("a", AttrVal.pgroup 1)] []) rfl,
   npg_complete.2.2 true [] [] [("c", PyModule.mk true [("b", 2)] [] [])] "c"
      (PyModule.mk true [("b", 2)] [] []) ("b", 2)
      (List.mem_singleton.mpr rfl) rfl
      (by rw [npg_mk]; exact List.mem_append.mpr (Or.inl (List.mem_singleton.mpr rfl)))⟩

/-- C2: `__call__` raises its input-validation `RuntimeError` exactly when
some positional input is neither a `Variable` nor a `RandomVariable`; when
every input is one of the two, no input-validation error is raised and
`forward` is invoked on the inputs (the call reduces to processing
`forward inputs`). -/
theorem call_input_validation (forward : List Value → Value) (inputs : List Value) :
    ((∃ i ∈ inputs, validInput i = false) →
        ∃ cls, Module.call forward inputs = .error (.inputTypeError cls))
    ∧ ((∀ i ∈ inputs, validInput i = true) →
        Module.call forward inputs = processOutput inputs (forward inputs)
        ∧ ∀ cls, Module.call forward inputs ≠ .error (.inputTypeError cls)) := by
  constructor
  · rintro ⟨i, hmem, hbad⟩
    rcases firstRejected_isSome hmem hbad with ⟨bad, hb⟩
    have : firstInvalidInput inputs = some bad := hb
    exact ⟨bad.className, by simp [Module.call, this]⟩
  · intro h
    have heq := call_eq_processOutput forward h
    exact ⟨heq, fun cls => heq ▸ processOutput_ne_inputTypeError inputs (forward inputs) cls⟩

/-- Witness for C2: with a single non-tensor input the call raises the
input `RuntimeError`; with a single tensor input it reduces to processing
the `forward` result. -/
theorem call_input_validation_witness :
    (∃ cls, Module.call (fun _ => Value.var 5) [Value.otherObj 0] =
        .error (.inputTypeError cls))
    ∧ Module.call (fun _ => Value.var 5) [Value.var 0] =
        processOutput [Value.var 0] (Value.var 5) :=
  ⟨(call_input_validation (fun _ => Value.var 5) [Value.otherObj 0]).1
      ⟨Value.otherObj 0, List.mem_singleton.mpr rfl, rfl⟩,
   ((call_input_validation (fun _ => Value.var 5) [Value.var 0]).2
      (by intro i hi; rcases List.mem_singleton.mp hi with rfl; rfl)).1⟩

/-- C4: assigning a raw `nn.Parameter` as an attribute raises the
`RuntimeError` of line 37, for every attribute name; assigning a
`ParameterGroup` does not raise. -/
theorem setattr_param_vs_pgroup (m : PyModule) (name : String) (k g : Nat) :
    m.setattrVal name (.param k) =
      .error "Observation Models expect ParameterGroups, not nn.Parameters directly."
    ∧ ∃ m2, m.setattrVal name (.pgroup g) = .ok m2 :=
  ⟨rfl, ⟨_, rfl⟩⟩

/-- C6: the module performs no computation of its own: when all inputs pass
validation and `forward` returns a single `Variable`, `RandomVariable`, or
`LazyVariable`, the call returns exactly that value unchanged. -/
theorem call_returns_single_value_unchanged (forward : List Value → Value)
    (inputs : List Value) (v : Value)
    (hin : ∀ i ∈ inputs, validInput i = true)
    (hfwd : forward inputs = v) (hv : validOutput v = true) :
    Module.call forward inputs = .ok v := by
  rw [call_eq_processOutput forward hin, hfwd]
  simp [processOutput, hv]

/-- Witness for C6: a `forward` producing the lazy matrix `9` from the tensor
input `0` has its value returned unchanged. -/
theorem call_returns_single_value_unchanged_witness :
    Module.call (fun _ => Value.lazyVariable 9) [Value.var 0] =
      .ok (Value.lazyVariable 9) :=
  call_returns_single_value_unchanged (fun _ => Value.lazyVariable 9)
    [Value.var 0] (Value.lazyVariable 9)
    (by intro i hi; rcases List.mem_singleton.mp hi with rfl; rfl) rfl rfl

/-- C7: `parameter_groups()` yields exactly the second components of the
pairs yielded by `named_parameter_groups()`, in the same order and with the
same multiplicity. -/
theorem parameter_groups_eq_map_snd (m : PyModule) :
    m.parameter_groups = m.named_parameter_groups.map Prod.snd :=
  pgValues_eq_map m.named_parameter_groups

/-- C3 counterexample: with a valid tensor input, a `forward` returning a
plain non-iterable object (which is not a tensor, random variable, lazy
matrix, or collection of those) makes the call raise Python's `TypeError`
from iterating a non-iterable — not the usage `RuntimeError` the claim
states. -/
theorem call_bad_output_not_runtimeError :
    Module.call (fun _ => Value.otherObj 0) [Value.var 0] =
      .error (.notIterable "object")
    ∧ PyErr.pythonClass (.notIterable "object") ≠ "RuntimeError" :=
  ⟨rfl, by decide⟩

/-- C3 amended: with validated inputs, a `forward` result that is a
collection containing an element that is none of the three accepted types
makes the call raise the output-validation `RuntimeError` — provided at
least one positional input was given (the error message formats the leftover
input-loop variable; with zero positional inputs that read raises
`UnboundLocalError` instead). A `forward` result that is a non-iterable
object of none of the three types raises a `TypeError` from the `for` loop,
not a `RuntimeError`. -/
theorem call_output_validation_amended (forward : List Value → Value)
    (inputs : List Value) (hin : ∀ i ∈ inputs, validInput i = true) :
    (∀ elems : List Value, forward inputs = .collection elems →
        (∃ e ∈ elems, validOutput e = false) →
        (inputs ≠ [] → ∃ cls, Module.call forward inputs =
            .error (.outputTypeError cls)
          ∧ PyErr.pythonClass (.outputTypeError cls) = "RuntimeError")
        ∧ (inputs = [] → Module.call forward inputs = .error .unboundLocal))
    ∧ (∀ k : Nat, forward inputs = .otherObj k →
        Module.call forward inputs = .error (.notIterable "object")
        ∧ PyErr.pythonClass (.notIterable "object") = "TypeError") := by
  have hcall := call_eq_processOutput forward hin
  constructor
  · rintro elems hfwd ⟨e, hmem, hbad⟩
    rcases firstRejected_isSome hmem hbad with ⟨bad, hb⟩
    have hb2 : firstInvalidOutput elems = some bad := hb
    rw [hcall, hfwd]
    constructor
    · intro hne
      rcases Option.ne_none_iff_exists.mp
          (fun hnone => hne (List.getLast?_eq_none_iff.mp hnone)) with ⟨last, hlast⟩
      exact ⟨last.className, by simp [processOutput, validOutput, hb2, hlast.symm], rfl⟩
    · intro hnil
      subst hnil
      simp [processOutput, validOutput, hb2]
  · intro k hfwd
    rw [hcall, hfwd]
    exact ⟨rfl, rfl⟩

/-- Witness for the amended C3: a collection output holding a plain object
raises the output `RuntimeError` when one tensor input was given, and a bare
plain-object output raises `TypeError`. -/
theorem call_output_validation_amended_witness :
    (∃ cls, Module.call (fun _ => Value.collection [Value.otherObj 1]) [Value.var 0] =
        .error (.outputTypeError cls)
      ∧ PyErr.pythonClass (.outputTypeError cls) = "RuntimeError")
    ∧ Module.call (fun _ => Value.otherObj 1) [Value.var 0] =
        .error (.notIterable "object") :=
  ⟨((call_output_validation_amended (fun _ => Value.collection [Value.otherObj 1])
      [Value.var 0]
      (by intro i hi; rcases List.mem_singleton.mp hi with rfl; rfl)).1
      [Value.otherObj 1] rfl
      ⟨Value.otherObj 1, List.mem_singleton.mpr rfl, rfl⟩).1
      (by simp),
   ((call_output_validation_amended (fun _ => Value.otherObj 1) [Value.var 0]
      (by intro i hi; rcases List.mem_singleton.mp hi with rfl; rfl)).2
      1 rfl).1⟩

/-- C5 counterexample: a `LazyVariable` positional input does NOT pass input
validation: line 18 tests only `RandomVariable` and `Variable`, so a lazy
matrix input raises the input-validation `RuntimeError`. -/
theorem lazy_input_rejected :
    Module.call (fun _ => Value.var 0) [Value.lazyVariable 0] =
      .error (.inputTypeError "LazyVariable")
    ∧ PyErr.pythonClass (.inputTypeError "LazyVariable") = "RuntimeError" :=
  ⟨rfl, rfl⟩

/-- C5 amended: input validation accepts only the tensor and random-variable
variants; whenever some positional input is a lazy matrix (`LazyVariable`),
the call signals the input-validation `RuntimeError`. Lazy matrices are
accepted only as outputs. -/
theorem input_validation_rejects_lazy (forward : List Value → Value)
    (inputs : List Value) (k : Nat) (hmem : Value.lazyVariable k ∈ inputs) :
    ∃ cls, Module.call forward inputs = .error (.inputTypeError cls) := by
  rcases @firstRejected_isSome validInput inputs (Value.lazyVariable k) hmem rfl
    with ⟨bad, hb⟩
  have hb2 : firstInvalidInput inputs = some bad := hb
  exact ⟨bad.className, by simp [Module.call, hb2]⟩

/-- Witness for the amended C5 at a concrete lazy input. -/
theorem input_validation_rejects_lazy_witness :
    ∃ cls, Module.call (fun _ => Value.var 0) [Value.var 1, Value.lazyVariable 2] =
      .error (.inputTypeError cls) :=
  input_validation_rejects_lazy (fun _ => Value.var 0)
    [Value.var 1, Value.lazyVariable 2] 2
    (List.mem_cons_of_mem _ (List.mem_singleton.mpr rfl))

/-- C8: when the validated call's `forward` returns a collection whose every
element is one of the three accepted types, a collection of length exactly 1
is unwrapped to its sole element, and a collection of any other length is
returned as the collection itself. -/
theorem call_unwraps_singleton_collection (forward : List Value → Value)
    (inputs : List Value) (elems : List Value)
    (hin : ∀ i ∈ inputs, validInput i = true)
    (hfwd : forward inputs = .collection elems)
    (hout : ∀ e ∈ elems, validOutput e = true) :
    (∀ e : Value, elems = [e] → Module.call forward inputs = .ok e)
    ∧ (elems.length ≠ 1 → Module.call forward inputs = .ok (.collection elems)) := by
  have hnone : firstInvalidOutput elems = none := firstRejected_eq_none hout
  have hcall := call_eq_processOutput forward hin
  rw [hcall, hfwd]
  constructor
  · rintro e rfl
    simp [processOutput, validOutput, hnone]
  · intro hlen
    match elems, hlen with
    | [], _ => simp [processOutput, validOutput, firstInvalidOutput, firstRejected]
    | [e], h => exact absurd rfl h
    | e1 :: e2 :: rest, _ => simp [processOutput, validOutput, hnone]

/-- Witness for C8: a two-element collection of valid outputs is returned as
the collection; a singleton collection is unwrapped. -/
theorem call_unwraps_singleton_collection_witness :
    Module.call (fun _ => Value.collection [Value.var 1, Value.randomVariable 2])
        [Value.var 0] = .ok (.collection [Value.var 1, Value.randomVariable 2])
    ∧ Module.call (fun _ => Value.collection [Value.randomVariable 3])
        [Value.var 0] = .ok (Value.randomVariable 3) :=
  ⟨(call_unwraps_singleton_collection
      (fun _ => Value.collection [Value.var 1, Value.randomVariable 2])
      [Value.var 0] [Value.var 1, Value.randomVariable 2]
      (by intro i hi; rcases List.mem_singleton.mp hi with rfl; rfl) rfl
      (by intro e he
          rcases List.mem_cons.mp he with rfl | he2
          · rfl
          · rcases List.mem_singleton.mp he2 with rfl; rfl)).2 (by decide),
   (call_unwraps_singleton_collection
      (fun _ => Value.collection [Value.randomVariable 3])
      [Value.var 0] [Value.randomVariable 3]
      (by intro i hi; rcases List.mem_singleton.mp hi with rfl; rfl) rfl
      (by intro e he; rcases List.mem_singleton.mp he with rfl; rfl)).1
      (Value.randomVariable 3) rfl⟩

/-- C9: a pair is yielded by a module's `named_parameter_groups()` exactly
when it is one of the module's own `_parameter_groups` items or is yielded by
a child that is an instance of the extended `Module` class. In particular a
parameter group held by a plain `nn.Module` child — or by a grandchild
reachable only through such a child — is never yielded: the
`isinstance(child, Module)` guard skips that whole subtree. -/
theorem npg_skips_plain_children (b : Bool) (pgs : List (String × Nat))
    (ats : List (String × AttrVal)) (mods : List (String × PyModule))
    (p : String × Nat) :
    p ∈ (PyModule.mk b pgs ats mods).named_parameter_groups ↔
      p ∈ pgs ∨ ∃ nm c, (nm, c) ∈ mods ∧ c.isGMod = true ∧
        p ∈ c.named_parameter_groups := by
  rw [npg_mk, List.mem_append, mem_npgOfChildren]

/-- C10 counterexample: a nested child's parameter group named
`"__setstate__"` is yielded by the parent's `named_parameter_groups()` and is
not an ordinary attribute of the parent, yet reading that attribute raises
`AttributeError` (the deepcopy guard of `__getattr__`) instead of returning
the group. -/
theorem getattr_setstate_not_resolved :
    ("__setstate__", 7) ∈ (PyModule.mk true [] []
        [("c", PyModule.mk true [("__setstate__", 7)] [] [])]).named_parameter_groups
    ∧ lookupStr (PyModule.mk true [] []
        [("c", PyModule.mk true [("__setstate__", 7)] [] [])]).attrs "__setstate__" = none
    ∧ getattribute (PyModule.mk true [] []
        [("c", PyModule.mk true [("__setstate__", 7)] [] [])]) "__setstate__" = none :=
  ⟨by rw [npg_mk]
      exact List.mem_append.mpr (Or.inr (by
        show ("__setstate__", 7) ∈ [("__setstate__", 7)]
        exact List.mem_singleton.mpr rfl)),
   rfl, rfl⟩

/-- C10 amended: for every name other than the reserved `"__setstate__"` that
is yielded by `named_parameter_groups()` and is not an ordinary attribute of
the module, reading that attribute returns the first parameter group yielded
under that name — including a group that belongs to a nested child module.
Reading `"__setstate__"` when it is not an ordinary attribute raises
`AttributeError` instead (guard against deepcopy recursion). -/
theorem getattr_resolves_group_amended (m : PyModule) (name : String) (g : Nat)
    (hmod : m.isGMod = true) (hname : name ≠ "__setstate__")
    (hattr : lookupStr m.attrs name = none)
    (hfirst : lookupStr m.named_parameter_groups name = some g) :
    getattribute m name = some (.attrVal (.pgroup g)) := by
  simp [getattribute, hattr, hmod, hname, hfirst]

/-- Witness for the amended C10: the group `2` named `"b"` of a nested child
is returned when reading `"b"` on the parent. -/
theorem getattr_resolves_group_amended_witness :
    getattribute (PyModule.mk true [] []
        [("c", PyModule.mk true [("b", 2)] [] [])]) "b" =
      some (.attrVal (.pgroup 2)) :=
  getattr_resolves_group_amended
    (PyModule.mk true [] [] [("c", PyModule.mk true [("b", 2)] [] [])])
    "b" 2 rfl (by decide) rfl rfl

end GPyTorch
